import Mathlib

/-!
Verification development for the clover-mcp OAuth client.

The embedding below is a shallow model of `src/oauth-v2.ts` and of the
401-retry interceptor of `src/clover-client.ts`.  JavaScript values that can
be `undefined`/`null` are modelled as `Option`; JavaScript truthiness of
strings (empty string is falsy) and of numbers (zero is falsy) is made
explicit through `strTruthy` and `numTruthy`.  Timestamps are `Int` seconds
since the epoch.  The HTTP endpoints of the authorization server are
modelled as oracle functions (a `Provider`), each taking the triple of
strings that the source sends as the request body.
-/

namespace Clover

/-- JavaScript truthiness of a possibly absent string: `undefined`, `null`
and the empty string are falsy. -/
def strTruthy : Option String → Bool
  | none => false
  | some s => !(s == "")

/-- JavaScript truthiness of a possibly absent number: `undefined`, `null`
and `0` are falsy. -/
def numTruthy : Option Int → Bool
  | none => false
  | some n => !(n == 0)

/-- JavaScript `x || y` on possibly absent strings. -/
def jsOrStr (x y : Option String) : Option String :=
  match x with
  | some s => if s = "" then y else some s
  | none => y

/-- JavaScript `x || d` where `d` is a present string. -/
def jsOrStrD (x : Option String) (d : String) : String :=
  match x with
  | some s => if s = "" then d else s
  | none => d

/-- JavaScript `x || d` where `d` is a present number. -/
def jsOrIntD (x : Option Int) (d : Int) : Int :=
  match x with
  | some n => if n = 0 then d else n
  | none => d

/-- The module-level `currentTokens` record of `oauth-v2.ts`: the stored
Credential Record.  Every field is nullable. -/
structure Tokens where
  accessToken : Option String
  refreshToken : Option String
  merchantId : Option String
  accessTokenExpiry : Option Int
  refreshTokenExpiry : Option Int
deriving DecidableEq, Repr

/-- The initial store: all five fields `null`. -/
def emptyTokens : Tokens := ⟨none, none, none, none, none⟩

/-- The `OAuthV2TokenResponse` shape.  The source declares every field as
present, but the values come from unvalidated JSON response bodies, so the
model keeps each field optional. -/
structure TokenResponse where
  access_token : Option String
  refresh_token : Option String
  merchant_id : Option String
  access_token_expiry : Option Int
  refresh_token_expiry : Option Int
deriving DecidableEq, Repr

/-- The legacy (v1) token endpoint response shape: `access_token`,
optional `refresh_token`, `merchant_id`, relative `expires_in`. -/
structure V1Response where
  access_token : Option String
  refresh_token : Option String
  merchant_id : Option String
  expires_in : Option Int
deriving DecidableEq, Repr

/-- The `OAuthConfig` of the client. -/
structure OAuthConfig where
  clientId : String
  clientSecret : String
  baseUrl : String
  redirectUrl : String

/-- `OAuthV2Client.setTokens`: copies the five response fields into the
store (the mirror into the `.env` file is I/O and is not modelled). -/
def setTokens (r : TokenResponse) : Tokens :=
  ⟨r.access_token, r.refresh_token, r.merchant_id,
   r.access_token_expiry, r.refresh_token_expiry⟩

/-- `OAuthV2Client.hasValidTokens`: false when the access token or the
merchant id is falsy; otherwise, when the stored expiry is truthy and
`now >= expiry`, false; otherwise true. -/
def hasValidTokens (t : Tokens) (now : Int) : Bool :=
  if !strTruthy t.accessToken || !strTruthy t.merchantId then false
  else
    match t.accessTokenExpiry with
    | some e => if e ≠ 0 ∧ now ≥ e then false else true
    | none => true

/-- The authorization server, as four endpoint oracles.  Each oracle takes
the triple of strings that the source puts in the request body:
`(client_id, client_secret, code)` for the exchange endpoints and
`(client_id, client_secret, refresh_token)` for the refresh endpoints.
`Except.error` is a thrown request (network failure or non-2xx status).
The v2 exchange oracle may succeed with `none`, which models a falsy
response body (the `if (tokenResponse)` check in the callback handler). -/
structure Provider where
  v2token : String × String × String → Except Unit (Option TokenResponse)
  v1token : String × String × String → Except Unit V1Response
  v2refresh : String × String × String → Except Unit TokenResponse
  v1refresh : String × String × String → Except Unit V1Response

/-- The v1-to-v2 normalization inside `exchangeCodeForTokens`:
`refresh_token: v1Data.refresh_token || ""`,
`access_token_expiry: now + (v1Data.expires_in || 3600)`,
`refresh_token_expiry: now + (30 * 86400)`. -/
def normalizeV1Exchange (now : Int) (d : V1Response) : TokenResponse :=
  { access_token := d.access_token
  , refresh_token := some (jsOrStrD d.refresh_token "")
  , merchant_id := d.merchant_id
  , access_token_expiry := some (now + jsOrIntD d.expires_in 3600)
  , refresh_token_expiry := some (now + 30 * 86400) }

/-- `OAuthV2Client.exchangeCodeForTokens`: try the v2 JSON endpoint; on any
thrown failure fall back to the legacy form endpoint with the same
`(client_id, client_secret, code)` triple and normalize its response;
propagate an error only when both attempts throw. -/
def exchangeCodeForTokens (cfg : OAuthConfig) (p : Provider) (now : Int)
    (code : String) : Except Unit (Option TokenResponse) :=
  match p.v2token (cfg.clientId, cfg.clientSecret, code) with
  | .ok data => .ok data
  | .error _ =>
      match p.v1token (cfg.clientId, cfg.clientSecret, code) with
      | .ok d => .ok (some (normalizeV1Exchange now d))
      | .error e => .error e

/-- The v1-to-v2 transformation inside `refreshAccessToken`:
`refresh_token: v1Data.refresh_token || currentTokens.refreshToken`,
`merchant_id: v1Data.merchant_id || currentTokens.merchantId`,
`access_token_expiry: now + (v1Data.expires_in || 3600)`,
`refresh_token_expiry: currentTokens.refreshTokenExpiry || now + 30*86400`. -/
def refreshTransform (now : Int) (t : Tokens) (d : V1Response) : TokenResponse :=
  { access_token := d.access_token
  , refresh_token := jsOrStr d.refresh_token t.refreshToken
  , merchant_id := jsOrStr d.merchant_id t.merchantId
  , access_token_expiry := some (now + jsOrIntD d.expires_in 3600)
  , refresh_token_expiry := some (jsOrIntD t.refreshTokenExpiry (now + 30 * 86400)) }

/-- `OAuthV2Client.refreshAccessToken` over an explicit store `t`.  Returns
the outcome delivered to the caller together with the store after the call;
`setTokens` runs only on the two success paths.  The v2 tier stores the
response verbatim; the v1 tier stores `refreshTransform`. -/
def refreshAccessToken (cfg : OAuthConfig) (p : Provider) (now : Int)
    (t : Tokens) : Except String TokenResponse × Tokens :=
  if strTruthy t.refreshToken = false then
    (.error "No refresh token available", t)
  else
    let rt := jsOrStrD t.refreshToken ""
    match p.v2refresh (cfg.clientId, cfg.clientSecret, rt) with
    | .ok data => (.ok data, setTokens data)
    | .error _ =>
        match p.v1refresh (cfg.clientId, cfg.clientSecret, rt) with
        | .ok d =>
            let transformed := refreshTransform now t d
            (.ok transformed, setTokens transformed)
        | .error _ =>
            (.error "OAuth refresh error: Token expired or invalid. Please reauthenticate.", t)

/-! ### Authorization flow controller and callback listener -/

/-- The mutable fields of `OAuthV2Client` relevant to the flow, plus the
stored Credential Record.  `server` is whether `this.server` is non-null;
`promiseSet` is whether the `promiseResolve`/`promiseReject` pair is
non-null (the source always sets and clears the two together). -/
structure ClientState where
  server : Bool
  promiseSet : Bool
  store : Tokens
deriving DecidableEq, Repr

/-- The shared body of `resolvePromise` and `rejectPromise`: when the
completion slot is set, deliver and clear it, otherwise do nothing.
Returns the new slot together with whether a delivery happened. -/
def deliverResolution (promiseSet : Bool) : Bool × Bool :=
  if promiseSet then (false, true) else (promiseSet, false)

/-- The synchronous head of `OAuthV2Client.startOAuthFlow`: reject when the
server is already running, otherwise install the completion slot and start
the listener. -/
def startOAuthFlow (s : ClientState) : Except String ClientState :=
  if s.server then .error "OAuth server is already running"
  else .ok { s with server := true, promiseSet := true }

/-- `OAuthV2Client.closeServer`: closes the listener and nulls
`this.server` when it is running. -/
def closeServer (s : ClientState) : ClientState :=
  if s.server then { s with server := false } else s

/-- The query string of a callback request. -/
structure Query where
  code : Option String
  state : Option String
  merchant_id : Option String
deriving Repr

/-- The observable effect of one run of the `/oauth-callback` handler:
the HTTP status of the page sent back, whether the token exchange was
invoked, what (if anything) was delivered through the completion slot,
whether the delayed `closeServer` was scheduled, and the client state
right after the handler returns. -/
structure CallbackResult where
  status : Nat
  exchangeAttempted : Bool
  resolvedWith : Option TokenResponse
  rejectedWith : Option String
  shutdownScheduled : Bool
  newState : ClientState
deriving Repr

/-- The defaulting steps of the callback success path: backfill
`merchant_id` from the redirect query when the response lacks one, then
default a falsy or NaN `access_token_expiry` to `now + 3600` and a falsy
or NaN `refresh_token_expiry` to `now + 30*86400`. -/
def applyCallbackDefaults (now : Int) (q : Query) (tr : TokenResponse) :
    TokenResponse :=
  let tr1 := if strTruthy tr.merchant_id = false ∧ strTruthy q.merchant_id = true
             then { tr with merchant_id := q.merchant_id } else tr
  let tr2 := if numTruthy tr1.access_token_expiry = false
             then { tr1 with access_token_expiry := some (now + 3600) } else tr1
  if numTruthy tr2.refresh_token_expiry = false
  then { tr2 with refresh_token_expiry := some (now + 30 * 86400) } else tr2

/-- The `/oauth-callback` handler of `startOAuthFlow`.  The state check is
advisory only (the source logs a mismatch and proceeds), so the outcome
does not depend on `q.state`.  A falsy `code` answers 400 and rejects the
pending promise without invoking the exchange; otherwise the exchange runs,
a truthy response is defaulted, stored via `setTokens`, answered with the
200 success page, resolved, and the delayed shutdown is scheduled; a falsy
response body or a thrown exchange answers 500 and rejects. -/
def handleCallback (cfg : OAuthConfig) (p : Provider) (now : Int) (q : Query)
    (s : ClientState) : CallbackResult :=
  if strTruthy q.code = false then
    let r := deliverResolution s.promiseSet
    { status := 400, exchangeAttempted := false, resolvedWith := none
    , rejectedWith := if r.2 then some "Missing authorization code" else none
    , shutdownScheduled := false
    , newState := { s with promiseSet := r.1 } }
  else
    match exchangeCodeForTokens cfg p now (jsOrStrD q.code "") with
    | .ok (some tr0) =>
        let tr := applyCallbackDefaults now q tr0
        let r := deliverResolution s.promiseSet
        { status := 200, exchangeAttempted := true
        , resolvedWith := if r.2 then some tr else none
        , rejectedWith := none
        , shutdownScheduled := true
        , newState := { s with promiseSet := r.1, store := setTokens tr } }
    | .ok none =>
        let r := deliverResolution s.promiseSet
        { status := 500, exchangeAttempted := true, resolvedWith := none
        , rejectedWith := if r.2 then some "No tokens in response" else none
        , shutdownScheduled := false
        , newState := { s with promiseSet := r.1 } }
    | .error _ =>
        let r := deliverResolution s.promiseSet
        { status := 500, exchangeAttempted := true, resolvedWith := none
        , rejectedWith := if r.2 then some "Error exchanging code for tokens" else none
        , shutdownScheduled := false
        , newState := { s with promiseSet := r.1 } }

/-- A resolve or reject event hitting the Authorization Session. -/
inductive ResEvent
  | resolveEv
  | rejectEv
deriving DecidableEq, Repr

/-- Run a sequence of resolve/reject events against the completion slot,
counting how many deliveries reach the caller. -/
def runSession : Bool → List ResEvent → Bool × Nat
  | ps, [] => (ps, 0)
  | ps, _ :: evs =>
      let r := deliverResolution ps
      let rest := runSession r.1 evs
      (rest.1, (if r.2 then 1 else 0) + rest.2)

/-! ### Credential-aware request decorator (clover-client.ts) -/

/-- An upstream HTTP response. -/
structure HttpResponse where
  status : Nat
  body : String
deriving DecidableEq, Repr

/-- What the response interceptor decides to do with a response. -/
inductive InterceptAction
  | refreshAndRetry
  | propagate
deriving DecidableEq, Repr

/-- The decision logic of the response interceptor in
`CloverApiClient.updateClient`: refresh and retry exactly when the status
is 401 and the request is not already flagged `_retry`. -/
def responseInterceptor (status : Nat) (retried : Bool) : InterceptAction :=
  if status = 401 ∧ retried = false then .refreshAndRetry else .propagate

/-- The trace of one decorated request: how many refreshes ran, how many
times the request was issued upstream, and the outcome handed to the
caller. -/
structure RequestTrace where
  refreshCalls : Nat
  apiAttempts : Nat
  outcome : Except String HttpResponse
deriving Repr

/-- Driver of the interceptor loop.  `api i` is the upstream response to
the i-th issue of the request; `refreshOk` is whether
`refreshAccessToken` succeeds when invoked.  The fuel bounds the loop;
since the retry flag is set before re-issuing, two steps always suffice
(`runRequest` below supplies fuel 2). -/
def runRequestFuel (api : Nat → HttpResponse) (refreshOk : Bool) :
    Nat → Nat → Bool → RequestTrace
  | 0, _, _ => ⟨0, 0, .error "out of fuel"⟩
  | fuel + 1, i, retried =>
      let r := api i
      match responseInterceptor r.status retried with
      | .propagate => ⟨0, 1, .ok r⟩
      | .refreshAndRetry =>
          if refreshOk then
            let rest := runRequestFuel api refreshOk fuel (i + 1) true
            ⟨rest.refreshCalls + 1, rest.apiAttempts + 1, rest.outcome⟩
          else ⟨1, 1, .error "refresh failed"⟩

/-- One request through the decorator of `CloverApiClient.updateClient`. -/
def runRequest (api : Nat → HttpResponse) (refreshOk : Bool) : RequestTrace :=
  runRequestFuel api refreshOk 2 0 false

/-! ### Spec-side predicates (transcribed from the spec wording, for
refinement comparison against the source-derived definitions) -/

/-- Transcribed from the spec sentence for claim C4: valid exactly when the
access token is present, the merchant id is present, and it is not the case
that `now >= access_token_expiry` (no expiry constraint when the expiry is
absent). -/
def hasValidTokensSpec (t : Tokens) (now : Int) : Bool :=
  strTruthy t.accessToken && strTruthy t.merchantId &&
    (match t.accessTokenExpiry with
     | some e => decide (now < e)
     | none => true)

/-- Transcribed from the spec invariant for claim C9: the Credential Record
is either fully absent or carries a non-empty access token and a non-empty
merchant id. -/
def credentialIntact (t : Tokens) : Bool :=
  decide (t = emptyTokens) || (strTruthy t.accessToken && strTruthy t.merchantId)

/-! ### Concrete fixtures used by witnesses and counterexamples -/

/-- A concrete client configuration. -/
def cfgX : OAuthConfig :=
  ⟨"id0", "secret0", "https://sandbox.test", "http://localhost:4000/oauth-callback"⟩

/-- A concrete stored record with every field truthy. -/
def tokensBefore : Tokens :=
  ⟨some "atok", some "oldR", some "M1", some 100, some 200⟩

/-- A provider whose endpoints all throw. -/
def pErr : Provider :=
  { v2token := fun _ => .error ()
  , v1token := fun _ => .error ()
  , v2refresh := fun _ => .error ()
  , v1refresh := fun _ => .error () }

/-- A provider whose v2 endpoints throw and whose legacy endpoints answer
with the fixed v1-shape response of claim C7. -/
def pV1Only : Provider :=
  { v2token := fun _ => .error ()
  , v1token := fun _ => .ok ⟨some "tok123", none, some "M1", some 1800⟩
  , v2refresh := fun _ => .error ()
  , v1refresh := fun _ => .ok ⟨some "tok123", none, some "M1", some 1800⟩ }

/-- A provider whose v2 refresh succeeds with a response that omits the
refresh token. -/
def pV2NoRefreshTok : Provider :=
  { pErr with v2refresh := fun _ => .ok ⟨some "newTok", none, some "M1", some 300, some 400⟩ }

/-- A provider whose v2 refresh succeeds with a response that omits the
merchant id. -/
def pV2NoMerchant : Provider :=
  { pErr with v2refresh := fun _ => .ok ⟨some "newTok", some "r2", none, some 300, some 400⟩ }

/-- A provider whose v2 exchange succeeds with a full response. -/
def pV2Exchange : Provider :=
  { pErr with
    v2token := fun _ => .ok (some ⟨some "xTok", some "xRef", some "M2", some 500, some 600⟩) }

/-- An upstream API answering 401 to every attempt. -/
def api401 : Nat → HttpResponse := fun _ => ⟨401, "unauthorized"⟩

/-- A callback query with no authorization code. -/
def qNoCode : Query := ⟨none, some "st", some "M1"⟩

/-- A callback query carrying a code and a merchant id. -/
def qWithCode : Query := ⟨some "c0", some "st", some "M9"⟩

/-- A client state with the listener up and the completion slot pending. -/
def sPending : ClientState := ⟨true, true, tokensBefore⟩

/-- A client state during the shutdown grace window: the listener is still
up but the completion slot has already been cleared. -/
def sResolved : ClientState := ⟨true, false, tokensBefore⟩

/-! ### Helper lemmas -/

/-- JavaScript `x || y` is truthy whenever `y` is truthy. -/
lemma strTruthy_jsOrStr (x y : Option String) (hy : strTruthy y = true) :
    strTruthy (jsOrStr x y) = true := by
  cases x with
  | none => simpa [jsOrStr] using hy
  | some s =>
      by_cases hs : s = ""
      · simpa [jsOrStr, hs] using hy
      · simp [jsOrStr, hs, strTruthy]

/-- JavaScript `x || d` stays nonzero when `x` is a truthy number. -/
lemma numTruthy_some_jsOrIntD (x : Option Int) (d : Int) (hx : numTruthy x = true) :
    numTruthy (some (jsOrIntD x d)) = true := by
  cases x with
  | none => simp [numTruthy] at hx
  | some n =>
      simp [numTruthy] at hx
      simp [jsOrIntD, hx, numTruthy]

/-- A cleared completion slot delivers nothing, whatever events arrive. -/
lemma runSession_cleared (evs : List ResEvent) : (runSession false evs).2 = 0 := by
  induction evs with
  | nil => rfl
  | cons e evs ih => simp [runSession, deliverResolution, ih]

/-- After a delivery attempt the completion slot is always clear. -/
lemma deliverResolution_fst (b : Bool) : (deliverResolution b).1 = false := by
  cases b <;> rfl

/-- startOAuthFlow rejects while the listener object is present. -/
lemma startOAuthFlow_busy (s : ClientState) (hs : s.server = true) :
    startOAuthFlow s = .error "OAuth server is already running" := by
  simp [startOAuthFlow, hs]

/-- Once closeServer has run, startOAuthFlow accepts again. -/
lemma startOAuthFlow_closeServer (s : ClientState) :
    startOAuthFlow (closeServer s) = .ok ⟨true, true, s.store⟩ := by
  unfold closeServer startOAuthFlow
  cases hs : s.server <;> simp [hs]

/-- Every branch of the callback handler clears the completion slot and
leaves the server field untouched. -/
lemma handleCallback_newState (cfg : OAuthConfig) (p : Provider) (now : Int)
    (q : Query) (s : ClientState) :
    (handleCallback cfg p now q s).newState.promiseSet = false ∧
    (handleCallback cfg p now q s).newState.server = s.server := by
  unfold handleCallback
  split
  · exact ⟨deliverResolution_fst _, rfl⟩
  · split <;> exact ⟨deliverResolution_fst _, rfl⟩

/-- The delayed shutdown is scheduled exactly on the success branch. -/
lemma handleCallback_shutdown (cfg : OAuthConfig) (p : Provider) (now : Int)
    (q : Query) (s : ClientState) :
    (handleCallback cfg p now q s).shutdownScheduled = true ↔
      (handleCallback cfg p now q s).status = 200 := by
  unfold handleCallback
  split
  · simp
  · split <;> simp

/-! ### Claims -/

/-- C4 counterexample: a stored record whose access-token expiry is the
number 0 at time 100.  The claim says hasValidTokens must return false
because now is at least the expiry, but the source skips the expiry check
for a falsy (zero) expiry and returns true. -/
theorem C4_counterexample :
    hasValidTokens ⟨some "atok", some "r", some "M1", some 0, some 50⟩ 100 = true ∧
    hasValidTokensSpec ⟨some "atok", some "r", some "M1", some 0, some 50⟩ 100 = false := by
  constructor
  · rfl
  · rfl

/-- C4 amended: hasValidTokens returns false exactly when the access token
is falsy, the merchant id is falsy, or the stored expiry is present,
nonzero, and now is at least it; in every other state (including an absent
or zero expiry) it returns true. -/
theorem C4_hasValidTokens_amended (t : Tokens) (now : Int) :
    hasValidTokens t now = false ↔
      (strTruthy t.accessToken = false ∨ strTruthy t.merchantId = false ∨
        ∃ e, t.accessTokenExpiry = some e ∧ e ≠ 0 ∧ now ≥ e) := by
  unfold hasValidTokens
  by_cases ha : strTruthy t.accessToken = true
  · by_cases hm : strTruthy t.merchantId = true
    · cases hx : t.accessTokenExpiry with
      | none => simp [ha, hm, hx]
      | some e =>
          by_cases he : e ≠ 0 ∧ now ≥ e
          · simp [ha, hm, hx, he]
          · simp [ha, hm, hx, he]
    · simp only [Bool.not_eq_true] at hm
      simp [hm]
  · simp only [Bool.not_eq_true] at ha
    simp [ha]

/-- C2: after a successful startOAuthFlow, any sequence of resolve or
reject events delivers at most one resolution to the caller, the first
event being the one that lands: the delivered count is min(length, 1). -/
theorem C2_single_resolution (s s' : ClientState) (evs : List ResEvent)
    (h : startOAuthFlow s = .ok s') :
    (runSession s'.promiseSet evs).2 = min evs.length 1 := by
  unfold startOAuthFlow at h
  by_cases hs : s.server
  · simp [hs] at h
  · simp [hs] at h
    have h1 : s'.promiseSet = true := by rw [← h]
    rw [h1]
    cases evs with
    | nil => rfl
    | cons e evs =>
        have hrun : (runSession true (e :: evs)).2 = 1 := by
          simp [runSession, deliverResolution, runSession_cleared]
        rw [hrun, List.length_cons]
        exact (Nat.min_eq_right (Nat.succ_le_succ (Nat.zero_le _))).symm

/-- C2 witness at a concrete idle state and a three-event sequence. -/
theorem C2_single_resolution_witness :
    (runSession (ClientState.mk true true emptyTokens).promiseSet
        [ResEvent.resolveEv, ResEvent.rejectEv, ResEvent.resolveEv]).2 =
      min ([ResEvent.resolveEv, ResEvent.rejectEv, ResEvent.resolveEv] : List ResEvent).length 1 :=
  C2_single_resolution ⟨false, false, emptyTokens⟩ ⟨true, true, emptyTokens⟩
    [ResEvent.resolveEv, ResEvent.rejectEv, ResEvent.resolveEv] rfl

/-- C5: a 401 on the first attempt, with a succeeding refresh, produces
exactly one refresh and exactly one retry, and the response of the retried
attempt (in particular a second 401) is handed to the caller unmodified
with no further refresh or retry. -/
theorem C5_401_refresh_retry (api : Nat → HttpResponse)
    (h0 : (api 0).status = 401) :
    (runRequest api true).refreshCalls = 1 ∧
    (runRequest api true).apiAttempts = 2 ∧
    (runRequest api true).outcome = .ok (api 1) := by
  simp [runRequest, runRequestFuel, responseInterceptor, h0]

/-- C5 witness: an upstream that answers 401 to both attempts. -/
theorem C5_401_refresh_retry_witness :
    (runRequest api401 true).refreshCalls = 1 ∧
    (runRequest api401 true).apiAttempts = 2 ∧
    (runRequest api401 true).outcome = .ok (api401 1) :=
  C5_401_refresh_retry api401 rfl

/-- C6: when the v2 exchange endpoint throws, the legacy endpoint is tried
with the same (client id, client secret, code) triple: a legacy success
yields its normalized response, and the overall call errors exactly when
the legacy attempt also throws. -/
theorem C6_exchange_fallback (cfg : OAuthConfig) (p : Provider) (now : Int)
    (code : String)
    (h2 : p.v2token (cfg.clientId, cfg.clientSecret, code) = .error ()) :
    (∀ d, p.v1token (cfg.clientId, cfg.clientSecret, code) = .ok d →
        exchangeCodeForTokens cfg p now code = .ok (some (normalizeV1Exchange now d))) ∧
    (exchangeCodeForTokens cfg p now code = .error () ↔
        p.v1token (cfg.clientId, cfg.clientSecret, code) = .error ()) := by
  unfold exchangeCodeForTokens
  rw [h2]
  constructor
  · intro d hd
    rw [hd]
  · cases hv : p.v1token (cfg.clientId, cfg.clientSecret, code) with
    | ok d => simp [hv]
    | error e => simp [hv]

/-- C6 witness: a provider whose v2 exchange throws and whose legacy
exchange succeeds. -/
theorem C6_exchange_fallback_witness :
    pV1Only.v2token (cfgX.clientId, cfgX.clientSecret, "c0") = .error () ∧
    exchangeCodeForTokens cfgX pV1Only 100 "c0" =
      .ok (some (normalizeV1Exchange 100 ⟨some "tok123", none, some "M1", some 1800⟩)) :=
  ⟨rfl, (C6_exchange_fallback cfgX pV1Only 100 "c0" rfl).1
    ⟨some "tok123", none, some "M1", some 1800⟩ rfl⟩

/-- C7: a legacy-tier exchange response with access token tok123, merchant
M1, expires_in 1800 and no refresh token is normalized to the record with
empty refresh token, access expiry now + 1800 and refresh expiry
now + 2592000. -/
theorem C7_legacy_normalization (cfg : OAuthConfig) (p : Provider) (now : Int)
    (code : String)
    (h2 : p.v2token (cfg.clientId, cfg.clientSecret, code) = .error ())
    (h1 : p.v1token (cfg.clientId, cfg.clientSecret, code) =
        .ok ⟨some "tok123", none, some "M1", some 1800⟩) :
    exchangeCodeForTokens cfg p now code =
      .ok (some ⟨some "tok123", some "", some "M1",
        some (now + 1800), some (now + 2592000)⟩) := by
  unfold exchangeCodeForTokens
  rw [h2, h1]
  simp [normalizeV1Exchange, jsOrStrD, jsOrIntD]

/-- C7 witness at the concrete provider pV1Only and time 100. -/
theorem C7_legacy_normalization_witness :
    exchangeCodeForTokens cfgX pV1Only 100 "c0" =
      .ok (some ⟨some "tok123", some "", some "M1",
        some (100 + 1800), some (100 + 2592000)⟩) :=
  C7_legacy_normalization cfgX pV1Only 100 "c0" rfl rfl

/-- C8: a callback request whose query has no code answers HTTP 400,
rejects the pending Authorization Session with the missing-code error,
never invokes the token exchange, and leaves the Credential Store
unchanged. -/
theorem C8_missing_code (cfg : OAuthConfig) (p : Provider) (now : Int)
    (q : Query) (s : ClientState)
    (hq : q.code = none) (hp : s.promiseSet = true) :
    (handleCallback cfg p now q s).status = 400 ∧
    (handleCallback cfg p now q s).rejectedWith = some "Missing authorization code" ∧
    (handleCallback cfg p now q s).exchangeAttempted = false ∧
    (handleCallback cfg p now q s).newState.store = s.store := by
  simp [handleCallback, hq, strTruthy, hp, deliverResolution]

/-- C8 witness at a pending state and a codeless query. -/
theorem C8_missing_code_witness :
    (handleCallback cfgX pErr 0 qNoCode sPending).status = 400 ∧
    (handleCallback cfgX pErr 0 qNoCode sPending).rejectedWith =
      some "Missing authorization code" ∧
    (handleCallback cfgX pErr 0 qNoCode sPending).exchangeAttempted = false ∧
    (handleCallback cfgX pErr 0 qNoCode sPending).newState.store = sPending.store :=
  C8_missing_code cfgX pErr 0 qNoCode sPending rfl rfl

/-- C1 counterexample: a refresh that succeeds on the v2 tier with a
response omitting the refresh token.  The stored refresh token was truthy
before the refresh, but the v2 success path stores the response verbatim
and the stored refresh token becomes null. -/
theorem C1_counterexample :
    strTruthy tokensBefore.refreshToken = true ∧
    (refreshAccessToken cfgX pV2NoRefreshTok 10 tokensBefore).1 =
      .ok ⟨some "newTok", none, some "M1", some 300, some 400⟩ ∧
    (refreshAccessToken cfgX pV2NoRefreshTok 10 tokensBefore).2.refreshToken = none :=
  ⟨rfl, rfl, rfl⟩

/-- C1 amended: the back-fill of omitted fields happens only on the legacy
(v1) refresh tier.  There, refresh token, merchant id and refresh expiry
that were truthy before the refresh stay truthy after it, whether or not
the provider response carries them.  (The v2 tier stores the provider
response verbatim, as the counterexample shows.) -/
theorem C1_refresh_backfill_amended (cfg : OAuthConfig) (p : Provider) (now : Int)
    (t : Tokens) (d : V1Response)
    (hrt : strTruthy t.refreshToken = true)
    (h2 : p.v2refresh (cfg.clientId, cfg.clientSecret, jsOrStrD t.refreshToken "") =
      .error ())
    (h1 : p.v1refresh (cfg.clientId, cfg.clientSecret, jsOrStrD t.refreshToken "") =
      .ok d) :
    (refreshAccessToken cfg p now t).1 = .ok (refreshTransform now t d) ∧
    strTruthy (refreshAccessToken cfg p now t).2.refreshToken = true ∧
    (strTruthy t.merchantId = true →
      strTruthy (refreshAccessToken cfg p now t).2.merchantId = true) ∧
    (numTruthy t.refreshTokenExpiry = true →
      numTruthy (refreshAccessToken cfg p now t).2.refreshTokenExpiry = true) := by
  have hres : refreshAccessToken cfg p now t =
      (.ok (refreshTransform now t d), setTokens (refreshTransform now t d)) := by
    simp [refreshAccessToken, hrt, h2, h1]
  rw [hres]
  refine ⟨rfl, ?_, ?_, ?_⟩
  · exact strTruthy_jsOrStr _ _ hrt
  · intro hm
    exact strTruthy_jsOrStr _ _ hm
  · intro hx
    exact numTruthy_some_jsOrIntD _ _ hx

/-- C1 amended witness: a legacy-tier refresh whose response omits the
refresh token and carries the other fields. -/
theorem C1_refresh_backfill_amended_witness :
    strTruthy tokensBefore.refreshToken = true ∧
    strTruthy (refreshAccessToken cfgX pV1Only 10 tokensBefore).2.refreshToken = true ∧
    strTruthy (refreshAccessToken cfgX pV1Only 10 tokensBefore).2.merchantId = true ∧
    numTruthy (refreshAccessToken cfgX pV1Only 10 tokensBefore).2.refreshTokenExpiry = true :=
  ⟨rfl,
   (C1_refresh_backfill_amended cfgX pV1Only 10 tokensBefore
      ⟨some "tok123", none, some "M1", some 1800⟩ rfl rfl rfl).2.1,
   (C1_refresh_backfill_amended cfgX pV1Only 10 tokensBefore
      ⟨some "tok123", none, some "M1", some 1800⟩ rfl rfl rfl).2.2.1 rfl,
   (C1_refresh_backfill_amended cfgX pV1Only 10 tokensBefore
      ⟨some "tok123", none, some "M1", some 1800⟩ rfl rfl rfl).2.2.2 rfl⟩

/-- C3 counterexample: a failure resolution (missing code) after which the
listener is still up, no shutdown was scheduled, and an immediate
startOAuthFlow call is rejected as already running — refuting the claim
that resolution makes a new flow acceptable at once. -/
theorem C3_counterexample :
    (handleCallback cfgX pErr 0 qNoCode sPending).rejectedWith =
      some "Missing authorization code" ∧
    (handleCallback cfgX pErr 0 qNoCode sPending).newState.server = true ∧
    (handleCallback cfgX pErr 0 qNoCode sPending).shutdownScheduled = false ∧
    startOAuthFlow (handleCallback cfgX pErr 0 qNoCode sPending).newState =
      .error "OAuth server is already running" :=
  ⟨rfl, rfl, rfl, rfl⟩

/-- C3 amended: resolution always clears the completion slot, but the
handler never tears the listener down synchronously: the server field is
unchanged in every branch, the delayed closeServer is scheduled exactly on
the success branch (failure branches schedule nothing), a new
startOAuthFlow is rejected while the server object is still present, and
only after closeServer runs is a new flow accepted. -/
theorem C3_teardown_amended (cfg : OAuthConfig) (p : Provider) (now : Int)
    (q : Query) (s : ClientState) :
    (handleCallback cfg p now q s).newState.promiseSet = false ∧
    (handleCallback cfg p now q s).newState.server = s.server ∧
    ((handleCallback cfg p now q s).shutdownScheduled = true ↔
      (handleCallback cfg p now q s).status = 200) ∧
    (s.server = true →
      startOAuthFlow (handleCallback cfg p now q s).newState =
        .error "OAuth server is already running") ∧
    startOAuthFlow (closeServer (handleCallback cfg p now q s).newState) =
      .ok ⟨true, true, (handleCallback cfg p now q s).newState.store⟩ := by
  obtain ⟨hps, hsv⟩ := handleCallback_newState cfg p now q s
  refine ⟨hps, hsv, handleCallback_shutdown cfg p now q s, ?_, ?_⟩
  · intro hs
    exact startOAuthFlow_busy _ (hsv.trans hs)
  · exact startOAuthFlow_closeServer _

/-- C3 amended witness at a concrete pending state with the listener up. -/
theorem C3_teardown_amended_witness :
    (handleCallback cfgX pErr 0 qNoCode sPending).newState.promiseSet = false ∧
    startOAuthFlow (handleCallback cfgX pErr 0 qNoCode sPending).newState =
      .error "OAuth server is already running" ∧
    startOAuthFlow (closeServer (handleCallback cfgX pErr 0 qNoCode sPending).newState) =
      .ok ⟨true, true, (handleCallback cfgX pErr 0 qNoCode sPending).newState.store⟩ :=
  ⟨(C3_teardown_amended cfgX pErr 0 qNoCode sPending).1,
   (C3_teardown_amended cfgX pErr 0 qNoCode sPending).2.2.2.1 rfl,
   (C3_teardown_amended cfgX pErr 0 qNoCode sPending).2.2.2.2⟩

/-- C9 counterexample: a v2-tier refresh success whose response omits the
merchant id.  The store was intact before and is left with a truthy access
token but no merchant id — a partial Credential Record is persisted. -/
theorem C9_counterexample :
    credentialIntact tokensBefore = true ∧
    (refreshAccessToken cfgX pV2NoMerchant 10 tokensBefore).1 =
      .ok ⟨some "newTok", some "r2", none, some 300, some 400⟩ ∧
    credentialIntact (refreshAccessToken cfgX pV2NoMerchant 10 tokensBefore).2 = false := by
  refine ⟨by decide, rfl, by decide⟩

/-- C9 amended: what the code does guarantee is that failures never write:
a refresh that returns an error leaves the store exactly as it was, and a
callback that does not answer 200 leaves the store exactly as it was.
Success paths persist provider responses unvalidated, so the intactness
invariant holds only when success responses carry the required fields (the
counterexample shows a violating success). -/
theorem C9_no_partial_write_amended (cfg : OAuthConfig) (p : Provider) (now : Int)
    (t : Tokens) (q : Query) (s : ClientState) :
    (∀ e, (refreshAccessToken cfg p now t).1 = .error e →
        (refreshAccessToken cfg p now t).2 = t) ∧
    ((handleCallback cfg p now q s).status ≠ 200 →
        (handleCallback cfg p now q s).newState.store = s.store) := by
  constructor
  · intro e he
    by_cases hrt : strTruthy t.refreshToken = false
    · simp [refreshAccessToken, hrt]
    · cases h2 : p.v2refresh (cfg.clientId, cfg.clientSecret, jsOrStrD t.refreshToken "") with
      | ok d => simp [refreshAccessToken, hrt, h2] at he
      | error u =>
          cases h1 : p.v1refresh (cfg.clientId, cfg.clientSecret, jsOrStrD t.refreshToken "") with
          | ok d => simp [refreshAccessToken, hrt, h2, h1] at he
          | error v => simp [refreshAccessToken, hrt, h2, h1]
  · intro hstat
    by_cases hq : strTruthy q.code = false
    · simp [handleCallback, hq]
    · cases hx : exchangeCodeForTokens cfg p now (jsOrStrD q.code "") with
      | ok o =>
          cases o with
          | some tr0 =>
              exfalso
              apply hstat
              simp [handleCallback, hq, hx]
          | none => simp [handleCallback, hq, hx]
      | error u => simp [handleCallback, hq, hx]

/-- C9 amended witness: a refresh against a provider whose endpoints all
throw, and a codeless callback; neither touches the store. -/
theorem C9_no_partial_write_amended_witness :
    (refreshAccessToken cfgX pErr 0 tokensBefore).2 = tokensBefore ∧
    (handleCallback cfgX pErr 0 qNoCode sPending).newState.store = sPending.store :=
  ⟨(C9_no_partial_write_amended cfgX pErr 0 tokensBefore qNoCode sPending).1
      "OAuth refresh error: Token expired or invalid. Please reauthenticate." rfl,
   (C9_no_partial_write_amended cfgX pErr 0 tokensBefore qNoCode sPending).2 (by decide)⟩

/-- C10: the single-resolution guard protects only the completion signal.
A callback carrying a code whose exchange succeeds writes the exchanged
(and defaulted) record to the store even when the completion slot was
already cleared, delivering nothing to the caller. -/
theorem C10_store_overwrite (cfg : OAuthConfig) (p : Provider) (now : Int)
    (q : Query) (s : ClientState) (tr0 : TokenResponse)
    (hps : s.promiseSet = false)
    (hc : strTruthy q.code = true)
    (hx : exchangeCodeForTokens cfg p now (jsOrStrD q.code "") = .ok (some tr0)) :
    (handleCallback cfg p now q s).status = 200 ∧
    (handleCallback cfg p now q s).newState.store =
      setTokens (applyCallbackDefaults now q tr0) ∧
    (handleCallback cfg p now q s).resolvedWith = none ∧
    (handleCallback cfg p now q s).rejectedWith = none := by
  simp [handleCallback, hc, hx, hps, deliverResolution]

/-- C10 witness: a second successful callback during the grace window
(slot cleared, listener still up) overwrites the stored record. -/
theorem C10_store_overwrite_witness :
    (handleCallback cfgX pV2Exchange 0 qWithCode sResolved).status = 200 ∧
    (handleCallback cfgX pV2Exchange 0 qWithCode sResolved).newState.store =
      setTokens (applyCallbackDefaults 0 qWithCode
        ⟨some "xTok", some "xRef", some "M2", some 500, some 600⟩) ∧
    (handleCallback cfgX pV2Exchange 0 qWithCode sResolved).resolvedWith = none ∧
    (handleCallback cfgX pV2Exchange 0 qWithCode sResolved).rejectedWith = none :=
  C10_store_overwrite cfgX pV2Exchange 0 qWithCode sResolved
    ⟨some "xTok", some "xRef", some "M2", some 500, some 600⟩ rfl rfl rfl

end Clover
